import Mathlib

/-!
Verification of the `TheDevMinerTV/website` repository: the
`PocketCastsIcon` React component (`src/components/icons/pocket-casts.tsx`)
and the front matter of the MDX documentation pages under `content/docs`.

The component is embedded shallowly: JSX markup becomes Lean structures,
the props object becomes a structure with the destructured `className`
field plus a list of arbitrary extra properties, and the module's top-level
side effect (the `displayName` assignment) becomes an explicit list of
mutations applied to the exported component value.
-/

/-- Props object passed to the component. The source destructures only
`className`; `others` stands for any further properties a caller may put on
the props object (a JavaScript object can always carry extra keys). An
absent / `undefined` `className` is `none`. -/
structure Props where
  className : Option String
  others : List (String × String)
deriving DecidableEq, Repr

/-- The `<path>` child element of the rendered SVG, with the three
attributes the source sets on it. -/
structure PathElement where
  fillRule : String
  clipRule : String
  d : String
deriving DecidableEq, Repr

/-- The `<svg>` element the component returns: its three attributes and
its list of `<path>` children. -/
structure SvgElement where
  xmlns : String
  viewBox : String
  className : String
  children : List PathElement
deriving DecidableEq, Repr

/-- The constant `d` attribute of the single `<path>` element,
copied verbatim from `pocket-casts.tsx` lines 17-18. -/
def pocketCastsPathData : String :=
  "M128 20C187.65 20 236 68.3503 236 128C236 187.65 187.65 236 128 236C68.3503 236 20 187.65 20 128C20 68.3503 68.3503 20 128 20ZM128 211.997C81.6072 211.997 44.003 174.393 44.003 128C44.003 81.6072 81.6072 44.003 128 44.003V64.9955C115.541 64.9955 103.361 68.6901 93.001 75.6121C82.6412 82.5341 74.5667 92.3726 69.7983 103.883C65.03 115.394 63.782 128.061 66.2122 140.281C68.6425 152.501 74.6418 163.726 83.4515 172.537C92.2612 181.348 103.486 187.348 115.706 189.78C127.926 192.211 140.592 190.965 152.104 186.198C163.615 181.43 173.454 173.357 180.377 162.998C187.301 152.639 190.996 140.459 190.998 128H211.997C211.997 174.4 174.393 211.997 128 211.997ZM77.5977 128C77.5977 114.632 82.908 101.812 92.3602 92.3602C101.812 82.908 114.632 77.5978 128 77.5978V95.924C121.658 95.9253 115.459 97.8071 110.186 101.331C104.913 104.856 100.804 109.864 98.3773 115.724C95.9509 121.584 95.3164 128.031 96.554 134.251C97.7916 140.471 100.846 146.185 105.33 150.67C109.815 155.154 115.529 158.208 121.749 159.446C127.969 160.684 134.416 160.049 140.276 157.623C146.136 155.196 151.144 151.087 154.669 145.814C158.193 140.541 160.075 134.342 160.076 128H178.402C178.402 141.368 173.092 154.188 163.64 163.64C154.188 173.092 141.368 178.402 128 178.402C114.632 178.402 101.812 173.092 92.3602 163.64C82.908 154.188 77.5977 141.368 77.5977 128Z"

/-- Modelled from the spec: the class-combining helper `cn` is imported
from the in-repo module `@/lib/utils`, whose source file is not in the
snapshot (only this caller is). The spec describes the component as taking
a single styling class input that the markup's class attribute carries
alongside the fixed base class, so `cn` is modelled with the standard
clsx-style behaviour the spec implies: an `undefined` (or empty) argument
contributes nothing and the base class alone remains; a non-empty string
argument is appended after a single space. -/
def cn (base : String) (extra : Option String) : String :=
  match extra with
  | none => base
  | some s => if s = "" then base else base ++ " " ++ s

/-- The component body (`pocket-casts.tsx` lines 5-21): destructure
`className` from the props and return the `<svg>` element with its fixed
attributes, class `cn "fill-current" className`, and a single `<path>`
child carrying the constant path data. -/
def PocketCastsIcon (props : Props) : SvgElement :=
  let className := props.className
  { xmlns := "http://www.w3.org/2000/svg"
    viewBox := "0 0 256 256"
    className := cn "fill-current" className
    children := [{ fillRule := "evenodd", clipRule := "evenodd", d := pocketCastsPathData }] }

/-- The argument of a JavaScript function call: either `undefined` or an
actual props object. Destructuring `\x7b className \x7d` from `undefined`
would throw, so calling the component is modelled as fallible. -/
inductive JsArg where
  | undef : JsArg
  | obj : Props → JsArg
deriving DecidableEq, Repr

/-- Calling the component under JavaScript semantics: destructuring the
parameter pattern throws a `TypeError` on `undefined`, and otherwise the
body runs, which contains no further fallible operation. -/
def PocketCastsIconJs : JsArg → Except String SvgElement
  | JsArg.undef => Except.error "TypeError: cannot destructure className of undefined"
  | JsArg.obj p => Except.ok (PocketCastsIcon p)

/-- A React function component value as the module exports it: its render
function together with its (mutable) `displayName` property. -/
structure ReactComponent where
  render : Props → SvgElement
  displayName : Option String

/-- The component value as created by the `const PocketCastsIcon = ...`
declaration, before any top-level statement runs: no `displayName` yet. -/
def pocketCastsIconModuleInit : ReactComponent :=
  { render := PocketCastsIcon, displayName := none }

/-- Every mutating top-level statement of `pocket-casts.tsx`, in order.
The module has exactly one: `PocketCastsIcon.displayName = "PocketCastsIcon"`
(line 23). -/
def moduleTopLevelMutations : List (ReactComponent → ReactComponent) :=
  [fun c => { c with displayName := some "PocketCastsIcon" }]

/-- The component value after the module finished evaluating, i.e. after
all top-level mutations ran. -/
def pocketCastsIconExported : ReactComponent :=
  moduleTopLevelMutations.foldl (fun c m => m c) pocketCastsIconModuleInit

/-- One import of `pocket-casts.tsx`: source module, imported name, and
whether it is a type-only import (erased at runtime). -/
structure ImportDecl where
  fromModule : String
  importedName : String
  typeOnly : Bool
deriving DecidableEq, Repr

/-- The three import statements of `pocket-casts.tsx` (lines 1-3):
`React` from `react`, `type \x7b Icon \x7d` from `@/components/icons`, and
`\x7b cn \x7d` from `@/lib/utils`. -/
def pocketCastsModuleImports : List ImportDecl :=
  [ { fromModule := "react", importedName := "React", typeOnly := false },
    { fromModule := "@/components/icons", importedName := "Icon", typeOnly := true },
    { fromModule := "@/lib/utils", importedName := "cn", typeOnly := false } ]

/-- Whether `p` is a prefix of `s`, character by character. -/
def charsStart : List Char → List Char → Bool
  | [], _ => true
  | _ :: _, [] => false
  | p :: ps, c :: cs => p == c && charsStart ps cs

/-- Whether the string `s` starts with `pre`. -/
def strStarts (s pre : String) : Bool :=
  charsStart pre.data s.data

/-- A module specifier resolves inside the repository exactly when it uses
the `@/` path alias (which `tsconfig` maps to the repository's `src/`). -/
def isInRepoModule (m : String) : Bool :=
  strStarts m "@/"

/-- The imports of `pocket-casts.tsx` that are resolved inside the
repository and survive to runtime (not type-only). -/
def runtimeInRepoImports : List ImportDecl :=
  pocketCastsModuleImports.filter (fun i => !i.typeOnly && isInRepoModule i.fromModule)

/-- A documentation page of the repository: its path and its opening
lines, copied verbatim from the file. -/
structure DocPage where
  path : String
  firstLines : List String
deriving DecidableEq, Repr

/-- Whether a field named `f` is present in a front-matter block. -/
def hasField (block : List String) (f : String) : Bool :=
  block.any (fun l => strStarts l (f ++ ":"))

/-- Whether a file's opening lines form a front-matter block: a leading
`---` line, a later closing `---` line, and `title`, `excerpt` and
`bottomNavigation` fields in between. -/
def hasDocFrontmatter (lines : List String) : Bool :=
  match lines with
  | "---" :: rest =>
      let block := rest.takeWhile (fun l => l != "---")
      rest.any (fun l => l == "---") &&
        hasField block "title" && hasField block "excerpt" &&
        hasField block "bottomNavigation"
  | _ => false

/-- Every documentation page in the repository, with the verbatim opening
five lines of each file. -/
def docPages : List DocPage :=
  [ { path := "content/docs/400-guides/550-scheduling/200-repetition.mdx",
      firstLines :=
        [ "---",
          "title: Repetition",
          "excerpt: Discover the significance of repetition in effect-driven software development with functions like `repeat` and `repeatOrElse`. Explore repeat policies, which enable you to execute effects multiple times according to specific criteria. Learn the syntax and examples of `repeat` and `repeatOrElse` for effective handling of repeated actions, including optional fallback strategies for errors.",
          "bottomNavigation: pagination",
          "---" ] },
    { path := "content/docs/400-guides/800-schema/350-annotations.mdx",
      firstLines :=
        [ "---",
          "title: Annotations",
          "excerpt: Annotations",
          "bottomNavigation: pagination",
          "---" ] },
    { path := "content/docs/400-guides/800-schema/450-error-formatters.mdx",
      firstLines :=
        [ "---",
          "title: Error Formatters",
          "excerpt: Error Formatters",
          "bottomNavigation: pagination",
          "---" ] },
    { path := "content/docs/400-guides/800-schema/700-schema-to-x/200-json-schema.mdx",
      firstLines :=
        [ "---",
          "title: JSON Schema",
          "excerpt: JSON Schema",
          "bottomNavigation: pagination",
          "---" ] },
    { path := "content/docs/700-other/300-data-types/redacted.mdx",
      firstLines :=
        [ "---",
          "title: Redacted",
          "excerpt: The Redacted module in \"effect\" provides tools to securely handle sensitive data within applications, preventing accidental exposure in logs or error messages. It offers functions to create, manage, and compare `Redacted` instances, ensuring sensitive information is protected and managed appropriately.",
          "bottomNavigation: pagination",
          "---" ] },
    { path := "unnamed/part_000",
      firstLines :=
        [ "---",
          "title: Getting Started",
          "excerpt: Getting Started",
          "bottomNavigation: pagination",
          "---" ] },
    { path := "unnamed/part_001",
      firstLines :=
        [ "---",
          "title: Error Messages",
          "excerpt: Error Messages",
          "bottomNavigation: pagination",
          "---" ] },
    { path := "unnamed/part_002",
      firstLines :=
        [ "---",
          "title: Class APIs",
          "excerpt: Class APIs",
          "bottomNavigation: pagination",
          "---" ] } ]

/-- C1: `PocketCastsIcon` is deterministic and stateless: any two
invocations with equal props return equal markup, with no hidden state
influencing the output. -/
theorem pocketCastsIcon_deterministic (p q : Props) (h : p = q) :
    PocketCastsIcon p = PocketCastsIcon q := by
  rw [h]

theorem pocketCastsIcon_deterministic_witness :
    PocketCastsIcon { className := some "size-6", others := [] } =
      PocketCastsIcon { className := some "size-6", others := [] } :=
  pocketCastsIcon_deterministic
    { className := some "size-6", others := [] }
    { className := some "size-6", others := [] } rfl

/-- C2 counterexample: the markup is NOT one constant value independent of
the input: two different `className` values yield different markup (the
svg class attribute differs). -/
theorem pocketCastsIcon_not_constant :
    PocketCastsIcon { className := some "text-red-500", others := [] } ≠
      PocketCastsIcon { className := none, others := [] } := by
  decide

/-- C2 (amended): the markup is fixed except for the svg class attribute:
any two outputs agree on `xmlns`, `viewBox` and the children, and each
output's class attribute is `cn "fill-current"` of its `className`. -/
theorem pocketCastsIcon_constant_up_to_class (p q : Props) :
    (PocketCastsIcon p).xmlns = (PocketCastsIcon q).xmlns ∧
      (PocketCastsIcon p).viewBox = (PocketCastsIcon q).viewBox ∧
      (PocketCastsIcon p).children = (PocketCastsIcon q).children ∧
      (PocketCastsIcon p).className = cn "fill-current" p.className :=
  ⟨rfl, rfl, rfl, rfl⟩

/-- C3: every part of the output except the class attribute is unchanged
by the input: the returned svg has xmlns `http://www.w3.org/2000/svg`,
viewBox `0 0 256 256`, a single path child with `fillRule` and `clipRule`
`evenodd` and the constant path data, and only the class attribute depends
(through `cn`) on `className`. -/
theorem pocketCastsIcon_frame (p : Props) :
    (PocketCastsIcon p).xmlns = "http://www.w3.org/2000/svg" ∧
      (PocketCastsIcon p).viewBox = "0 0 256 256" ∧
      (PocketCastsIcon p).children =
        [{ fillRule := "evenodd", clipRule := "evenodd", d := pocketCastsPathData }] ∧
      (PocketCastsIcon p).className = cn "fill-current" p.className :=
  ⟨rfl, rfl, rfl, rfl⟩

/-- C4: the component has no error conditions: for every props value
(including one with an absent `className`), the call completes normally
with the rendered markup and never reaches the JavaScript failure path. -/
theorem pocketCastsIcon_total (p : Props) :
    PocketCastsIconJs (JsArg.obj p) = Except.ok (PocketCastsIcon p) :=
  rfl

/-- C5: the output depends only on the `className` input: two props
objects with equal `className` yield equal markup, whatever other
properties they carry. -/
theorem pocketCastsIcon_noninterference (p q : Props)
    (h : p.className = q.className) :
    PocketCastsIcon p = PocketCastsIcon q := by
  unfold PocketCastsIcon
  rw [h]

theorem pocketCastsIcon_noninterference_witness :
    PocketCastsIcon { className := some "fill-current", others := [("data-testid", "icon")] } =
      PocketCastsIcon { className := some "fill-current", others := [] } :=
  pocketCastsIcon_noninterference
    { className := some "fill-current", others := [("data-testid", "icon")] }
    { className := some "fill-current", others := [] } rfl

/-- C6 counterexample: the module DOES invoke a definition from another
in-repo module: the runtime in-repo imports are not empty (line 3 imports
`cn` from `@/lib/utils`), and the class attribute of the markup is
computed by that imported `cn`. -/
theorem pocketCastsIcon_uses_in_repo_cn :
    runtimeInRepoImports ≠ [] ∧
      (PocketCastsIcon { className := some "size-4", others := [] }).className =
        cn "fill-current" (some "size-4") :=
  ⟨by decide, rfl⟩

/-- C6 (amended): the markup is determined entirely by the constants of
the component's own file, its `className` input, and the `cn` helper,
which is the module's sole runtime import from another in-repo module
(the `Icon` import from `@/components/icons` is type-only and erased). -/
theorem pocketCastsIcon_deps :
    runtimeInRepoImports =
      [{ fromModule := "@/lib/utils", importedName := "cn", typeOnly := false }] ∧
      ∀ p : Props,
        PocketCastsIcon p =
          { xmlns := "http://www.w3.org/2000/svg"
            viewBox := "0 0 256 256"
            className := cn "fill-current" p.className
            children :=
              [{ fillRule := "evenodd", clipRule := "evenodd", d := pocketCastsPathData }] } :=
  ⟨by decide, fun _ => rfl⟩

/-- C7: every documentation page begins with a front-matter block
delimited by `---` lines containing `title`, `excerpt` and
`bottomNavigation` fields. -/
theorem docPages_frontmatter :
    (docPages.all fun d => hasDocFrontmatter d.firstLines) = true := by
  decide

/-- C8: with no `className` (i.e. `undefined`), the class attribute of the
returned svg is exactly `fill-current`: `cn` contributes only the base
class. -/
theorem cn_default_class :
    cn "fill-current" none = "fill-current" ∧
      (PocketCastsIcon { className := none, others := [] }).className = "fill-current" :=
  ⟨rfl, rfl⟩

/-- C9: after the module evaluates, the exported component's `displayName`
is `PocketCastsIcon`; that assignment is the module's only top-level
mutation, and it leaves the rendered markup unchanged for every input. -/
theorem pocketCastsIcon_displayName :
    pocketCastsIconExported.displayName = some "PocketCastsIcon" ∧
      moduleTopLevelMutations.length = 1 ∧
      ∀ p : Props, pocketCastsIconExported.render p = PocketCastsIcon p :=
  ⟨rfl, rfl, fun _ => rfl⟩
